import Mathlib

/-!
Verification of Circle's KASan runtime (`lib/kasan.cpp`).

This file gives a shallow embedding of the address-sanitizer runtime:
the shadow-memory map, the access validator, the heap redzone hooks,
the global-variable registration, the bug reporter and the memcpy/memset
interceptors.  Real memory and shadow memory are modelled as total maps
from addresses (mathematical naturals; the claims under study never
exercise pointer wrap-around) to byte values.  The platform constants
`MEM_SHADOW_START` and `HEAP_BLOCK_ALIGN`, which come from Circle headers
outside this library, are treated as parameters (written `S` and `HR`).
Shadow bytes are read back through `int8_t`; Circle compiles with
`-fsigned-char`, so that read is a signed-byte interpretation.
-/

/-- KASAN_SHADOW_GRANULE_SIZE: one shadow byte tracks 8 real bytes. -/
def KASAN_SHADOW_GRANULE_SIZE : Nat := 8

/-- KASAN_SHADOW_MASK = KASAN_SHADOW_GRANULE_SIZE - 1. -/
def KASAN_SHADOW_MASK : Nat := 7

/-- GIGABYTE boundary of the GPU and I/O region (from Circle's memory map). -/
def GIGABYTE : Nat := 0x40000000

/-- Shadow tag: fully accessible granule. -/
def ASAN_SHADOW_UNPOISONED_MAGIC : Nat := 0x00

/-- Shadow tag: reserved (the shadow region itself). -/
def ASAN_SHADOW_RESERVED_MAGIC : Nat := 0xff

/-- Shadow tag: global-variable redzone. -/
def ASAN_SHADOW_GLOBAL_REDZONE_MAGIC : Nat := 0xf9

/-- Shadow tag: heap head redzone. -/
def ASAN_SHADOW_HEAP_HEAD_REDZONE_MAGIC : Nat := 0xfa

/-- Shadow tag: heap tail redzone. -/
def ASAN_SHADOW_HEAP_TAIL_REDZONE_MAGIC : Nat := 0xfb

/-- Shadow tag: freed heap block. -/
def ASAN_SHADOW_HEAP_FREE_MAGIC : Nat := 0xfd

/-- KASAN_HEAP_TAIL_REDZONE_SIZE = 0x20 bytes. -/
def KASAN_HEAP_TAIL_REDZONE_SIZE : Nat := 0x20

/-- KASAN_MEM_TO_SHADOW(addr) = (addr >> 3) + MEM_SHADOW_START; `S` is
`MEM_SHADOW_START`. -/
def KASAN_MEM_TO_SHADOW (S addr : Nat) : Nat := addr / 8 + S

/-- KASAN_SHADOW_TO_MEM(shadow) = (shadow - MEM_SHADOW_START) << 3. -/
def KASAN_SHADOW_TO_MEM (S shadow : Nat) : Nat := (shadow - S) * 8

/-- Value of a shadow byte when read back through `int8_t` (a signed char:
Circle builds with `-fsigned-char`). -/
def int8_of_byte (b : Nat) : Int :=
  if b % 256 < 128 then (b % 256 : Int) else (b % 256 : Int) - 256

/-- The scanning loop of `get_poisoned_shadow_address`: starting at shadow
address `start`, scan `len` shadow bytes and return the address of the first
non-zero one, or 0 (the C code's sentinel `non_zero_shadow_addr = 0`) when
all of them are zero. -/
def first_nonzero_shadow (sh : Nat → Nat) : Nat → Nat → Nat
  | _, 0 => 0
  | start, len + 1 =>
      if sh start ≠ 0 then start else first_nonzero_shadow sh (start + 1) len

/-- get_poisoned_shadow_address(addr, size): scan the shadow bytes covering
[addr, addr+size) for the first non-zero byte; accept (return 0) when there
is none, or when the non-zero byte is the shadow byte of the last real byte
of the range and the last byte's offset within its granule is below the
byte's encoded accessible count (compared through `int8_t`). -/
def get_poisoned_shadow_address (S : Nat) (sh : Nat → Nat) (addr size : Nat) : Nat :=
  let addr_shadow_start := KASAN_MEM_TO_SHADOW S addr
  let addr_shadow_end := KASAN_MEM_TO_SHADOW S (addr + size - 1) + 1
  let non_zero_shadow_addr :=
    first_nonzero_shadow sh addr_shadow_start (addr_shadow_end - addr_shadow_start)
  if non_zero_shadow_addr ≠ 0 then
    let last_byte := addr + size - 1
    let last_shadow_byte := KASAN_MEM_TO_SHADOW S last_byte
    if non_zero_shadow_addr ≠ last_shadow_byte ∨
        (((last_byte % 8 : Nat) : Int) ≥ int8_of_byte (sh last_shadow_byte)) then
      non_zero_shadow_addr
    else 0
  else 0

/-- poison_shadow(address, size, value): write `value` (a `uint8_t`) to every
shadow byte from KASAN_MEM_TO_SHADOW(address) up to (excluding)
KASAN_MEM_TO_SHADOW(address + size - 1) + 1, through the raw
`__kasan_memset` primitive.  Both `address` and `size` must be 8-byte
aligned (caller precondition of the C code). -/
def poison_shadow (S : Nat) (sh : Nat → Nat) (address size value : Nat) : Nat → Nat :=
  fun a =>
    if KASAN_MEM_TO_SHADOW S address ≤ a ∧
        a < KASAN_MEM_TO_SHADOW S (address + size - 1) + 1 then
      value
    else sh a

/-- unpoison_shadow(address, size): mark the full granules of
`size & ~KASAN_SHADOW_MASK` accessible, and when `size & KASAN_SHADOW_MASK`
is non-zero write that remainder into the shadow byte at
KASAN_MEM_TO_SHADOW(address + size).  `address` must be 8-byte aligned. -/
def unpoison_shadow (S : Nat) (sh : Nat → Nat) (address size : Nat) : Nat → Nat :=
  if size % 8 ≠ 0 then
    fun a =>
      if a = KASAN_MEM_TO_SHADOW S (address + size) then size % 8
      else poison_shadow S sh address (size / 8 * 8) ASAN_SHADOW_UNPOISONED_MAGIC a
  else
    poison_shadow S sh address (size / 8 * 8) ASAN_SHADOW_UNPOISONED_MAGIC

/-- The runtime's process-wide state set by `KasanInitialize`:
`g_shadow_mem_end`, `g_low_mem_end`, `g_high_mem_end` and
`g_kasan_initialized`. -/
structure KasanGlobals where
  shadow_mem_end : Nat
  low_mem_end : Nat
  high_mem_end : Nat
  kasan_initialized : Bool
deriving Repr, DecidableEq

/-- The mutable memory state the runtime touches: the shadow byte map and
the heap headers (`KASAN_HEAP_HEADER.aligned_size`, indexed by the block
start address), together with the globals above. -/
structure SState where
  shadow : Nat → Nat
  headers : Nat → Nat
  globals : KasanGlobals

/-- One record emitted through the diagnostic sink (`CLogger`).  `separator`
is the `===…===` line, `header` the "Invalid memory access: address …,
size …, is_write …, ip …" line, `shadowInfo` the "Shadow bytes around the
buggy address … (shadow …)" line, `rowNoBug` a plain 16-byte shadow row and
`rowWithBug` the row whose byte at `buggy_offset` is printed delimited in
brackets. -/
inductive LogEvent where
  | separator : LogEvent
  | header (addr size : Nat) (is_write : Bool) (ip : Nat) : LogEvent
  | shadowInfo (address shadow_address : Nat) : LogEvent
  | rowNoBug (address : Nat) (bytes : List Nat) : LogEvent
  | rowWithBug (address buggy_offset : Nat) (bytes : List Nat) : LogEvent
deriving Repr, DecidableEq

/-- Test whether a diagnostic record is the per-violation header line. -/
def isHeaderEvent : LogEvent → Bool
  | LogEvent.header _ _ _ _ => true
  | _ => false

/-- The 16 bytes printed by one shadow-dump row starting at `address`. -/
def shadowRow (sh : Nat → Nat) (address : Nat) : List Nat :=
  (List.range 16).map fun i => sh (address + i)

/-- kasan_print_16_bytes_no_bug(address). -/
def kasan_print_16_bytes_no_bug (sh : Nat → Nat) (address : Nat) : LogEvent :=
  LogEvent.rowNoBug address (shadowRow sh address)

/-- kasan_print_16_bytes_with_bug(address, buggy_offset). -/
def kasan_print_16_bytes_with_bug (sh : Nat → Nat) (address buggy_offset : Nat) : LogEvent :=
  LogEvent.rowWithBug address buggy_offset (shadowRow sh address)

/-- kasan_print_shadow_memory(address, range_before, range_after): print the
16-byte-aligned shadow row containing KASAN_MEM_TO_SHADOW(address) with its
buggy byte delimited, preceded by `range_before` and followed by
`range_after` plain rows. -/
def kasan_print_shadow_memory (S : Nat) (sh : Nat → Nat)
    (address range_before range_after : Nat) : List LogEvent :=
  let shadow_address := KASAN_MEM_TO_SHADOW S address
  let aligned_shadow := Nat.land shadow_address 0xfffffff0
  let buggy_offset := shadow_address - aligned_shadow
  LogEvent.shadowInfo address shadow_address ::
    ((List.range range_before).map fun k =>
      kasan_print_16_bytes_no_bug sh (aligned_shadow - (range_before - k) * 16)) ++
    kasan_print_16_bytes_with_bug sh aligned_shadow buggy_offset ::
    ((List.range range_after).map fun k =>
      kasan_print_16_bytes_no_bug sh (aligned_shadow + (k + 1) * 16))

/-- kasan_bug_report(addr, size, buggy_shadow_address, is_write, ip):
translate the buggy shadow address back to a real address, emit the header
record, then dump 3 shadow rows before and after the buggy row. -/
def kasan_bug_report (S : Nat) (sh : Nat → Nat)
    (addr size buggy_shadow_address : Nat) (is_write : Bool) (ip : Nat) : List LogEvent :=
  let buggy_address := KASAN_SHADOW_TO_MEM S buggy_shadow_address
  LogEvent.separator :: LogEvent.header addr size is_write ip ::
    kasan_print_shadow_memory S sh buggy_address 3 3

/-- kasan_check_memory(addr, size, write, pc): the access validator.  It
returns the (unchanged) state, the accept/reject decision (the C function's
`1`/`0` return) and the diagnostic records it emitted.  `S` is
`MEM_SHADOW_START`. -/
def kasan_check_memory (S : Nat) (st : SState) (addr size : Nat)
    (write : Bool) (pc : Nat) : SState × Bool × List LogEvent :=
  if st.globals.kasan_initialized = false ∨ size = 0 then (st, true, [])
  else
    let addr_end := addr + size - 1
    if (S ≤ addr ∧ addr_end < st.globals.shadow_mem_end) ∨
        (st.globals.low_mem_end ≤ addr ∧ addr_end < GIGABYTE) ∨
        st.globals.high_mem_end ≤ addr_end then
      (st, true, [])
    else
      let buggy_shadow_address := get_poisoned_shadow_address S st.shadow addr size
      if buggy_shadow_address = 0 then (st, true, [])
      else (st, false, kasan_bug_report S st.shadow addr size buggy_shadow_address write pc)

/-- A call made to the external heap allocator (`CHeapAllocator`). -/
inductive AllocEvent where
  | doAllocate (size : Nat) : AllocEvent
  | doFree (ptr : Nat) : AllocEvent
  | doReAllocate (ptr size : Nat) : AllocEvent
deriving Repr, DecidableEq

/-- kasan_get_allocate_params(nSize): `aligned_size` is nSize rounded up to
a multiple of 8 ((nSize + KASAN_SHADOW_MASK) & ~KASAN_SHADOW_MASK) and
`total_size` adds the head and tail redzones.  `HR` is
KASAN_HEAP_HEAD_REDZONE_SIZE (= Circle's HEAP_BLOCK_ALIGN). -/
def kasan_get_allocate_params (HR nSize : Nat) : Nat × Nat :=
  ((nSize + 7) / 8 * 8, (nSize + 7) / 8 * 8 + HR + KASAN_HEAP_TAIL_REDZONE_SIZE)

/-- kasan_shadow_allocated(ptr, nSize, aligned_size): write the header,
unpoison the payload, poison the head and tail redzones, and return the
payload pointer ptr + HR. -/
def kasan_shadow_allocated (S HR : Nat) (st : SState)
    (ptr nSize aligned_size : Nat) : SState × Nat :=
  let headers1 := fun x => if x = ptr then aligned_size else st.headers x
  let sh1 := unpoison_shadow S st.shadow (ptr + HR) nSize
  let sh2 := poison_shadow S sh1 ptr HR ASAN_SHADOW_HEAP_HEAD_REDZONE_MAGIC
  let sh3 := poison_shadow S sh2 (ptr + HR + aligned_size)
    KASAN_HEAP_TAIL_REDZONE_SIZE ASAN_SHADOW_HEAP_TAIL_REDZONE_MAGIC
  ({ st with shadow := sh3, headers := headers1 }, ptr + HR)

/-- KasanAllocateHook(rHeapAllocator, nSize).  The external allocator is
modelled by `alloc`, mapping the requested size to the returned block start
(`none` = null).  The result carries the new state, the returned pointer
and the calls made to the allocator. -/
def KasanAllocateHook (S HR : Nat) (alloc : Nat → Option Nat) (st : SState)
    (nSize : Nat) : SState × Option Nat × List AllocEvent :=
  let params := kasan_get_allocate_params HR nSize
  match alloc params.2 with
  | none => (st, none, [AllocEvent.doAllocate params.2])
  | some ptr =>
      let r := kasan_shadow_allocated S HR st ptr nSize params.1
      (r.1, some r.2, [AllocEvent.doAllocate params.2])

/-- KasanFreeHook(rHeapAllocator, pBlock): null is a no-op; otherwise read
`aligned_size` from the header at ptr - HR, hand the header address to
DoFree, and poison the payload as freed. -/
def KasanFreeHook (S HR : Nat) (st : SState) (pBlock : Option Nat) :
    SState × List AllocEvent :=
  match pBlock with
  | none => (st, [])
  | some ptr =>
      let aligned_size := st.headers (ptr - HR)
      let sh := poison_shadow S st.shadow ptr aligned_size ASAN_SHADOW_HEAP_FREE_MAGIC
      ({ st with shadow := sh }, [AllocEvent.doFree (ptr - HR)])

/-- KasanReAllocateHook(rHeapAllocator, pBlock, nSize): null block behaves
as KasanAllocateHook; otherwise the whole old payload is poisoned as freed,
then DoReAllocate is called with the old header address and the new total
size; on null that failure is propagated (old payload left poisoned). -/
def KasanReAllocateHook (S HR : Nat) (alloc : Nat → Option Nat)
    (realloc : Nat → Nat → Option Nat) (st : SState) (pBlock : Option Nat)
    (nSize : Nat) : SState × Option Nat × List AllocEvent :=
  match pBlock with
  | none => KasanAllocateHook S HR alloc st nSize
  | some old_ptr =>
      let sh1 := poison_shadow S st.shadow old_ptr (st.headers (old_ptr - HR))
        ASAN_SHADOW_HEAP_FREE_MAGIC
      let st1 := { st with shadow := sh1 }
      let params := kasan_get_allocate_params HR nSize
      match realloc (old_ptr - HR) params.2 with
      | none => (st1, none, [AllocEvent.doReAllocate (old_ptr - HR) params.2])
      | some new_ptr =>
          let r := kasan_shadow_allocated S HR st1 new_ptr nSize params.1
          (r.1, some r.2, [AllocEvent.doReAllocate (old_ptr - HR) params.2])

/-- The fields of `struct kasan_global_info` the runtime reads (the name,
module name and remaining metadata fields are never used by it). -/
structure kasan_global_info where
  start : Nat
  size : Nat
  size_with_redzone : Nat
deriving Repr, DecidableEq

/-- asan_register_global(global): unpoison [start, start+size), then poison
[start + roundUp8(size), start + size_with_redzone) as global redzone. -/
def asan_register_global (S : Nat) (sh : Nat → Nat) (g : kasan_global_info) : Nat → Nat :=
  let sh1 := unpoison_shadow S sh g.start g.size
  let aligned_size := (g.size + 7) / 8 * 8
  poison_shadow S sh1 (g.start + aligned_size) (g.size_with_redzone - aligned_size)
    ASAN_SHADOW_GLOBAL_REDZONE_MAGIC

/-- The __asan_register_globals entry point: register each descriptor of
the table in order. -/
def asan_register_globals (S : Nat) (sh : Nat → Nat)
    (globals : List kasan_global_info) : Nat → Nat :=
  globals.foldl (asan_register_global S) sh

/-- The __asan_unregister_globals entry point: its body is empty. -/
def asan_unregister_globals (S : Nat) (sh : Nat → Nat)
    (globals : List kasan_global_info) : Nat → Nat :=
  sh

/-- The intercepting memcpy: check the destination range as a write and the
source range as a read, then perform the raw copy (`__kasan_memcpy`,
modelled by the external primitive `rawCopy`) unconditionally. -/
def kasan_memcpy (S : Nat) (rawCopy : (Nat → Nat) → Nat → Nat → Nat → (Nat → Nat))
    (st : SState) (mem : Nat → Nat) (dst src size pc : Nat) :
    (Nat → Nat) × List LogEvent :=
  let c1 := kasan_check_memory S st dst size true pc
  let c2 := kasan_check_memory S c1.1 src size false pc
  (rawCopy mem dst src size, c1.2.2 ++ c2.2.2)

/-- The intercepting memset: check the buffer range as a write, then perform
the raw set (`__kasan_memset`, modelled by `rawSet`) unconditionally. -/
def kasan_memset (S : Nat) (rawSet : (Nat → Nat) → Nat → Nat → Nat → (Nat → Nat))
    (st : SState) (mem : Nat → Nat) (buf c size pc : Nat) :
    (Nat → Nat) × List LogEvent :=
  let c1 := kasan_check_memory S st buf size true pc
  (rawSet mem buf c size, c1.2.2)

/-- KasanInitialize(): record the shadow, low and high memory bounds, zero
the whole shadow region, mark the shadow region itself reserved, and set
the readiness flag.  The three sizes come from `CMemorySystem`. -/
def KasanInitialize (S : Nat) (st : SState)
    (shadow_mem_size low_mem_size high_mem_size : Nat) : SState :=
  let sh0 := fun a => if S ≤ a ∧ a < S + shadow_mem_size then 0 else st.shadow a
  let sh1 := poison_shadow S sh0 S shadow_mem_size ASAN_SHADOW_RESERVED_MAGIC
  { shadow := sh1
    headers := st.headers
    globals :=
      { shadow_mem_end := S + shadow_mem_size
        low_mem_end := low_mem_size
        high_mem_end := GIGABYTE + high_mem_size
        kasan_initialized := true } }

/- Evaluation lemmas for the shadow primitives (granule arithmetic). -/

theorem poison_shadow_eval (S : Nat) (sh : Nat → Nat) (address size value a : Nat)
    (ha : 8 ∣ address) (h0 : 0 < address) (hs : 8 ∣ size) :
    poison_shadow S sh address size value a =
      if address / 8 + S ≤ a ∧ a < address / 8 + size / 8 + S then value else sh a := by
  simp only [poison_shadow, KASAN_MEM_TO_SHADOW]
  split_ifs <;> first | rfl | omega

theorem unpoison_shadow_eval (S : Nat) (sh : Nat → Nat) (address size a : Nat)
    (ha : 8 ∣ address) (h0 : 0 < address) :
    unpoison_shadow S sh address size a =
      if size % 8 ≠ 0 ∧ a = address / 8 + size / 8 + S then size % 8
      else if address / 8 + S ≤ a ∧ a < address / 8 + size / 8 + S then
        ASAN_SHADOW_UNPOISONED_MAGIC
      else sh a := by
  have heval : poison_shadow S sh address (size / 8 * 8) ASAN_SHADOW_UNPOISONED_MAGIC a =
      if address / 8 + S ≤ a ∧ a < address / 8 + size / 8 + S then
        ASAN_SHADOW_UNPOISONED_MAGIC
      else sh a := by
    simp only [poison_shadow, KASAN_MEM_TO_SHADOW]
    split_ifs <;> first | rfl | omega
  simp only [unpoison_shadow, ite_apply]
  by_cases hrem : size % 8 = 0
  · rw [if_neg (show ¬size % 8 ≠ 0 by omega), heval]
    split_ifs <;> first | rfl | omega
  · rw [if_pos hrem, heval]
    simp only [KASAN_MEM_TO_SHADOW]
    split_ifs <;> first | rfl | omega

/-- C6: poison(A,N,v) followed by unpoison(A,N) (A and N 8-byte aligned)
makes every shadow byte covering [A, A+N) equal to 0, i.e. fully
accessible. -/
theorem poison_then_unpoison_restores (S : Nat) (sh : Nat → Nat) (A N v : Nat)
    (hA : 8 ∣ A) (h0 : 0 < A) (hN : 8 ∣ N) :
    ∀ a, KASAN_MEM_TO_SHADOW S A ≤ a → a < KASAN_MEM_TO_SHADOW S A + N / 8 →
      unpoison_shadow S (poison_shadow S sh A N v) A N a = 0 := by
  intro a h1 h2
  rw [unpoison_shadow_eval S _ A N a hA h0]
  have hrem : N % 8 = 0 := by omega
  simp only [KASAN_MEM_TO_SHADOW] at h1 h2
  split_ifs <;> first | rfl | omega

/- Helper lemmas about the access check. -/

theorem kasan_check_memory_fst (S : Nat) (st : SState) (addr size : Nat)
    (w : Bool) (pc : Nat) : (kasan_check_memory S st addr size w pc).1 = st := by
  simp only [kasan_check_memory]
  split_ifs <;> rfl

theorem kasan_check_memory_scan (S : Nat) (st : SState) (addr size : Nat)
    (w : Bool) (pc : Nat)
    (hinit : st.globals.kasan_initialized = true) (hsz : 1 ≤ size)
    (hS : addr + size ≤ S) (hlow : addr + size ≤ st.globals.low_mem_end)
    (hhigh : addr + size ≤ st.globals.high_mem_end) :
    kasan_check_memory S st addr size w pc =
      if get_poisoned_shadow_address S st.shadow addr size = 0 then (st, true, [])
      else
        (st, false, kasan_bug_report S st.shadow addr size
          (get_poisoned_shadow_address S st.shadow addr size) w pc) := by
  have h1 : ¬(st.globals.kasan_initialized = false ∨ size = 0) := by
    simp [hinit]; omega
  have h2 : ¬((S ≤ addr ∧ addr + size - 1 < st.globals.shadow_mem_end) ∨
      (st.globals.low_mem_end ≤ addr ∧ addr + size - 1 < GIGABYTE) ∨
      st.globals.high_mem_end ≤ addr + size - 1) := by omega
  simp only [kasan_check_memory]
  rw [if_neg h1, if_neg h2]

theorem first_nonzero_shadow_head (sh : Nat → Nat) (start len : Nat)
    (hlen : 1 ≤ len) (h : sh start ≠ 0) :
    first_nonzero_shadow sh start len = start := by
  cases len with
  | zero => omega
  | succ n => simp [first_nonzero_shadow, h]

theorem get_poisoned_shadow_address_single (S : Nat) (sh : Nat → Nat) (addr : Nat)
    (hS : 1 ≤ S) :
    get_poisoned_shadow_address S sh addr 1 =
      if sh (addr / 8 + S) ≠ 0 ∧
          int8_of_byte (sh (addr / 8 + S)) ≤ ((addr % 8 : Nat) : Int) then
        addr / 8 + S
      else 0 := by
  have hone : addr + 1 - 1 = addr := by omega
  simp only [get_poisoned_shadow_address, hone, KASAN_MEM_TO_SHADOW]
  have hlen : addr / 8 + S + 1 - (addr / 8 + S) = 1 := by omega
  rw [hlen]
  by_cases h0 : sh (addr / 8 + S) = 0
  · simp [first_nonzero_shadow, h0]
  · rw [first_nonzero_shadow_head sh _ 1 (by omega) h0]
    have hne : ¬(addr / 8 + S = 0) := by omega
    by_cases hcmp : int8_of_byte (sh (addr / 8 + S)) ≤ ((addr % 8 : Nat) : Int)
    · simp [hne, h0, hcmp, ge_iff_le]
    · simp [hne, h0, hcmp, ge_iff_le]

/-- C9: the access check is observably pure: it returns the state it was
given unchanged (shadow bytes, headers, bounds and readiness flag), and it
emits diagnostic records exactly when it rejects. -/
theorem check_memory_frame (S : Nat) (st : SState) (addr size : Nat)
    (w : Bool) (pc : Nat) :
    (kasan_check_memory S st addr size w pc).1 = st ∧
    ((kasan_check_memory S st addr size w pc).2.1 = false ↔
      (kasan_check_memory S st addr size w pc).2.2 ≠ []) := by
  constructor
  · simp only [kasan_check_memory]
    split_ifs <;> rfl
  · simp only [kasan_check_memory]
    split_ifs <;> simp [kasan_bug_report]

/-- C10: the intercepted memcpy checks the destination as a write and the
source as a read, the intercepted memset checks the buffer as a write, and
both then perform the underlying raw memory operation unconditionally,
whatever the checks decided. -/
theorem memcpy_memset_intercept (S : Nat)
    (rawCopy rawSet : (Nat → Nat) → Nat → Nat → Nat → (Nat → Nat))
    (st : SState) (mem : Nat → Nat) (dst src buf c size pc : Nat) :
    kasan_memcpy S rawCopy st mem dst src size pc =
      (rawCopy mem dst src size,
        (kasan_check_memory S st dst size true pc).2.2 ++
          (kasan_check_memory S st src size false pc).2.2) ∧
    kasan_memset S rawSet st mem buf c size pc =
      (rawSet mem buf c size, (kasan_check_memory S st buf size true pc).2.2) := by
  constructor
  · simp only [kasan_memcpy, kasan_check_memory_fst]
  · rfl

/-- Witness for C6 at a concrete instance. -/
theorem poison_then_unpoison_restores_witness :
    unpoison_shadow 100 (poison_shadow 100 (fun _ => 5) 8 16 0xff) 8 16 101 = 0 :=
  poison_then_unpoison_restores 100 (fun _ => 5) 8 16 0xff (by decide) (by decide)
    (by decide) 101 (by decide) (by decide)

/- Pointwise description of the shadow state after a successful allocation. -/

theorem kasan_shadow_allocated_shadow (S HR : Nat) (st : SState) (B n : Nat)
    (hB : 8 ∣ B) (hB0 : 0 < B) (hHR : 8 ∣ HR) (a : Nat) :
    (kasan_shadow_allocated S HR st B n ((n + 7) / 8 * 8)).1.shadow a =
      if B / 8 + HR / 8 + (n + 7) / 8 + S ≤ a ∧
          a < B / 8 + HR / 8 + (n + 7) / 8 + 4 + S then
        ASAN_SHADOW_HEAP_TAIL_REDZONE_MAGIC
      else if B / 8 + S ≤ a ∧ a < B / 8 + HR / 8 + S then
        ASAN_SHADOW_HEAP_HEAD_REDZONE_MAGIC
      else if n % 8 ≠ 0 ∧ a = B / 8 + HR / 8 + n / 8 + S then n % 8
      else if B / 8 + HR / 8 + S ≤ a ∧ a < B / 8 + HR / 8 + n / 8 + S then
        ASAN_SHADOW_UNPOISONED_MAGIC
      else st.shadow a := by
  have hA8 : 8 ∣ (n + 7) / 8 * 8 := Dvd.intro_left _ rfl
  have hPA : 8 ∣ B + HR + (n + 7) / 8 * 8 := by omega
  have h32 : (8 : Nat) ∣ KASAN_HEAP_TAIL_REDZONE_SIZE := by decide
  simp only [kasan_shadow_allocated]
  rw [poison_shadow_eval S _ (B + HR + (n + 7) / 8 * 8) KASAN_HEAP_TAIL_REDZONE_SIZE
      ASAN_SHADOW_HEAP_TAIL_REDZONE_MAGIC a hPA (by omega) h32,
    poison_shadow_eval S _ B HR ASAN_SHADOW_HEAP_HEAD_REDZONE_MAGIC a hB hB0 hHR,
    unpoison_shadow_eval S st.shadow (B + HR) n a (by omega) (by omega)]
  simp only [KASAN_HEAP_TAIL_REDZONE_SIZE]
  split_ifs <;> first | rfl | omega

theorem kasan_shadow_allocated_headers (S HR : Nat) (st : SState) (B n A x : Nat) :
    (kasan_shadow_allocated S HR st B n A).1.headers x =
      if x = B then A else st.headers x := rfl

theorem kasan_shadow_allocated_globals (S HR : Nat) (st : SState) (B n A : Nat) :
    (kasan_shadow_allocated S HR st B n A).1.globals = st.globals := rfl

/-- C2: allocate(n) rounds n up to a multiple of 8, requests
alignedSize + HEAD_RZ + TAIL_RZ bytes from the external allocator, returns
null unchanged on allocator failure, and otherwise writes the header at the
block start, unpoisons the payload, poisons the head and tail redzones and
returns blockStart + HEAD_RZ. -/
theorem allocate_hook_spec (S HR : Nat) (alloc : Nat → Option Nat) (st : SState)
    (n B : Nat) (hB : 8 ∣ B) (hB0 : 0 < B) (hHR : 8 ∣ HR) :
    (8 ∣ (kasan_get_allocate_params HR n).1 ∧ n ≤ (kasan_get_allocate_params HR n).1 ∧
      (kasan_get_allocate_params HR n).1 < n + 8) ∧
    ((kasan_get_allocate_params HR n).2 =
      (kasan_get_allocate_params HR n).1 + HR + KASAN_HEAP_TAIL_REDZONE_SIZE) ∧
    ((KasanAllocateHook S HR alloc st n).2.2 =
      [AllocEvent.doAllocate (kasan_get_allocate_params HR n).2]) ∧
    (alloc (kasan_get_allocate_params HR n).2 = none →
      KasanAllocateHook S HR alloc st n =
        (st, none, [AllocEvent.doAllocate (kasan_get_allocate_params HR n).2])) ∧
    (alloc (kasan_get_allocate_params HR n).2 = some B →
      (KasanAllocateHook S HR alloc st n).2.1 = some (B + HR) ∧
      (KasanAllocateHook S HR alloc st n).1.headers B = (kasan_get_allocate_params HR n).1 ∧
      (∀ x, x ≠ B → (KasanAllocateHook S HR alloc st n).1.headers x = st.headers x) ∧
      (KasanAllocateHook S HR alloc st n).1.globals = st.globals ∧
      (∀ a, (KasanAllocateHook S HR alloc st n).1.shadow a =
        if B / 8 + HR / 8 + (n + 7) / 8 + S ≤ a ∧
            a < B / 8 + HR / 8 + (n + 7) / 8 + 4 + S then
          ASAN_SHADOW_HEAP_TAIL_REDZONE_MAGIC
        else if B / 8 + S ≤ a ∧ a < B / 8 + HR / 8 + S then
          ASAN_SHADOW_HEAP_HEAD_REDZONE_MAGIC
        else if n % 8 ≠ 0 ∧ a = B / 8 + HR / 8 + n / 8 + S then n % 8
        else if B / 8 + HR / 8 + S ≤ a ∧ a < B / 8 + HR / 8 + n / 8 + S then
          ASAN_SHADOW_UNPOISONED_MAGIC
        else st.shadow a)) := by
  refine ⟨⟨Dvd.intro_left _ rfl, by simp [kasan_get_allocate_params]; omega,
    by simp [kasan_get_allocate_params]; omega⟩, rfl, ?_, ?_, ?_⟩
  · simp only [KasanAllocateHook]
    cases h : alloc (kasan_get_allocate_params HR n).2 <;> simp [h]
  · intro h
    simp only [KasanAllocateHook, h]
  · intro h
    simp only [KasanAllocateHook, h]
    exact ⟨rfl, by simp [kasan_shadow_allocated_headers],
      fun x hx => by simp [kasan_shadow_allocated_headers, hx],
      kasan_shadow_allocated_globals _ _ _ _ _ _,
      fun a => kasan_shadow_allocated_shadow S HR st B n hB hB0 hHR a⟩

/-- Witness for C2 at a concrete instance. -/
theorem allocate_hook_spec_witness :
    (KasanAllocateHook 1000 64 (fun _ => some 64)
      ⟨fun _ => 9, fun _ => 0, ⟨0, 0, 0, true⟩⟩ 10).2.1 = some 128 := by
  have h := allocate_hook_spec 1000 64 (fun _ => some 64)
    ⟨fun _ => 9, fun _ => 0, ⟨0, 0, 0, true⟩⟩ 10 64 (by decide) (by decide) (by decide)
  exact (h.2.2.2.2 rfl).1

/- Helper lemmas for rejection and single-byte acceptance. -/

theorem get_poisoned_reject (S : Nat) (sh : Nat → Nat) (addr size : Nat)
    (hS : 1 ≤ S) (hsz : 1 ≤ size) (h1 : sh (addr / 8 + S) ≠ 0)
    (h2 : int8_of_byte (sh ((addr + size - 1) / 8 + S)) ≤
      (((addr + size - 1) % 8 : Nat) : Int)) :
    get_poisoned_shadow_address S sh addr size = addr / 8 + S := by
  simp only [get_poisoned_shadow_address, KASAN_MEM_TO_SHADOW]
  rw [first_nonzero_shadow_head sh (addr / 8 + S) _ (by omega) h1]
  have hne : ¬(addr / 8 + S = 0) := by omega
  rw [if_pos hne, if_pos (Or.inr h2)]

theorem check_single_accept_iff (S : Nat) (st : SState) (addr : Nat)
    (w : Bool) (pc : Nat)
    (hS : 1 ≤ S) (hinit : st.globals.kasan_initialized = true)
    (hb1 : addr + 1 ≤ S) (hb2 : addr + 1 ≤ st.globals.low_mem_end)
    (hb3 : addr + 1 ≤ st.globals.high_mem_end) :
    ((kasan_check_memory S st addr 1 w pc).2.1 = true ↔
      (st.shadow (addr / 8 + S) = 0 ∨
        ((addr % 8 : Nat) : Int) < int8_of_byte (st.shadow (addr / 8 + S)))) := by
  rw [kasan_check_memory_scan S st addr 1 w pc hinit (by omega) hb1 hb2 hb3,
    get_poisoned_shadow_address_single S st.shadow addr hS]
  by_cases h0 : st.shadow (addr / 8 + S) = 0
  · simp [h0]
  · by_cases hcmp : int8_of_byte (st.shadow (addr / 8 + S)) ≤ ((addr % 8 : Nat) : Int)
    · have hne : ¬(addr / 8 + S = 0) := by omega
      have hget : (if st.shadow (addr / 8 + S) ≠ 0 ∧
            int8_of_byte (st.shadow (addr / 8 + S)) ≤ ((addr % 8 : Nat) : Int) then
          addr / 8 + S
        else 0) = addr / 8 + S := if_pos ⟨h0, hcmp⟩
      rw [hget, if_neg hne]
      constructor
      · intro h
        simp at h
      · intro h
        rcases h with h | h
        · exact absurd h h0
        · exact absurd hcmp (not_le.mpr h)
    · have hC : ¬(st.shadow (addr / 8 + S) ≠ 0 ∧
          int8_of_byte (st.shadow (addr / 8 + S)) ≤ ((addr % 8 : Nat) : Int)) :=
        fun hand => hcmp hand.2
      have hget : (if st.shadow (addr / 8 + S) ≠ 0 ∧
            int8_of_byte (st.shadow (addr / 8 + S)) ≤ ((addr % 8 : Nat) : Int) then
          addr / 8 + S
        else 0) = 0 := if_neg hC
      rw [hget, if_pos rfl]
      constructor
      · intro _
        exact Or.inr (not_le.mp hcmp)
      · intro _
        rfl

theorem freed_range_check_rejects (S : Nat) (st : SState) (ptr A addr size : Nat)
    (w : Bool) (pc : Nat)
    (hptr : 8 ∣ ptr) (hptr0 : 0 < ptr) (hA8 : 8 ∣ A)
    (hS : 1 ≤ S) (hinit : st.globals.kasan_initialized = true)
    (hsz : 1 ≤ size) (h1 : ptr ≤ addr) (h2 : addr + size ≤ ptr + A)
    (hb1 : addr + size ≤ S) (hb2 : addr + size ≤ st.globals.low_mem_end)
    (hb3 : addr + size ≤ st.globals.high_mem_end) :
    (kasan_check_memory S
      { st with shadow := poison_shadow S st.shadow ptr A ASAN_SHADOW_HEAP_FREE_MAGIC }
      addr size w pc).2.1 = false := by
  have hfirst : poison_shadow S st.shadow ptr A ASAN_SHADOW_HEAP_FREE_MAGIC (addr / 8 + S) =
      ASAN_SHADOW_HEAP_FREE_MAGIC := by
    rw [poison_shadow_eval S st.shadow ptr A _ _ hptr hptr0 hA8]
    split_ifs <;> first | rfl | omega
  have hlast : poison_shadow S st.shadow ptr A ASAN_SHADOW_HEAP_FREE_MAGIC
      ((addr + size - 1) / 8 + S) = ASAN_SHADOW_HEAP_FREE_MAGIC := by
    rw [poison_shadow_eval S st.shadow ptr A _ _ hptr hptr0 hA8]
    split_ifs <;> first | rfl | omega
  have hreject := get_poisoned_reject S
    (poison_shadow S st.shadow ptr A ASAN_SHADOW_HEAP_FREE_MAGIC) addr size hS hsz
    (by rw [hfirst]; simp [ASAN_SHADOW_HEAP_FREE_MAGIC])
    (by
      rw [hlast]
      have hv : int8_of_byte ASAN_SHADOW_HEAP_FREE_MAGIC = -3 := by decide
      rw [hv]
      omega)
  rw [kasan_check_memory_scan S
    { st with shadow := poison_shadow S st.shadow ptr A ASAN_SHADOW_HEAP_FREE_MAGIC }
    addr size w pc hinit hsz hb1 hb2 hb3, hreject]
  have hne : ¬(addr / 8 + S = 0) := by omega
  rw [if_neg hne]

/-- C3: free(null) is a no-op with no allocator call; free(ptr) reads the
aligned size from the header at ptr - HEAD_RZ, passes the header address to
the allocator's DoFree, poisons [ptr, ptr+alignedSize) as freed, and every
subsequent access of any size at any offset inside the original payload is
then rejected by the access check. -/
theorem free_hook_spec (S HR : Nat) (st : SState) (ptr : Nat)
    (hptr : 8 ∣ ptr) (hptr0 : 0 < ptr) (hA8 : 8 ∣ st.headers (ptr - HR)) :
    (KasanFreeHook S HR st none = (st, [])) ∧
    ((KasanFreeHook S HR st (some ptr)).2 = [AllocEvent.doFree (ptr - HR)]) ∧
    ((KasanFreeHook S HR st (some ptr)).1.headers = st.headers) ∧
    ((KasanFreeHook S HR st (some ptr)).1.globals = st.globals) ∧
    (∀ a, (KasanFreeHook S HR st (some ptr)).1.shadow a =
      if ptr / 8 + S ≤ a ∧ a < ptr / 8 + st.headers (ptr - HR) / 8 + S then
        ASAN_SHADOW_HEAP_FREE_MAGIC
      else st.shadow a) ∧
    (∀ addr size (w : Bool) (pc : Nat), 1 ≤ size → ptr ≤ addr →
      addr + size ≤ ptr + st.headers (ptr - HR) →
      1 ≤ S → st.globals.kasan_initialized = true →
      addr + size ≤ S → addr + size ≤ st.globals.low_mem_end →
      addr + size ≤ st.globals.high_mem_end →
      (kasan_check_memory S (KasanFreeHook S HR st (some ptr)).1 addr size w pc).2.1
        = false) := by
  refine ⟨rfl, rfl, rfl, rfl, ?_, ?_⟩
  · intro a
    show poison_shadow S st.shadow ptr (st.headers (ptr - HR))
      ASAN_SHADOW_HEAP_FREE_MAGIC a = _
    rw [poison_shadow_eval S st.shadow ptr (st.headers (ptr - HR)) _ a hptr hptr0 hA8]
  · intro addr size w pc hsz h1 h2 hS hinit hb1 hb2 hb3
    exact freed_range_check_rejects S st ptr (st.headers (ptr - HR)) addr size w pc
      hptr hptr0 hA8 hS hinit hsz h1 h2 hb1 hb2 hb3

/-- Witness for C3: after freeing the block whose payload starts at 64 with
aligned size 16, a 2-byte access at offset 2 of the old payload is
rejected. -/
theorem free_hook_spec_witness :
    (kasan_check_memory 1000
      (KasanFreeHook 1000 64 ⟨fun _ => 0, fun _ => 16, ⟨2000, 2000, 2000, true⟩⟩
        (some 64)).1 66 2 true 0).2.1 = false := by
  have h := free_hook_spec 1000 64 ⟨fun _ => 0, fun _ => 16, ⟨2000, 2000, 2000, true⟩⟩
    64 (by decide) (by decide) (by decide)
  exact h.2.2.2.2.2 66 2 true 0 (by decide) (by decide) (by decide) (by decide)
    (by decide) (by decide) (by decide) (by decide)

/-- C4: reallocate(null, n) behaves exactly as allocate(n); reallocate(ptr, n)
poisons the whole old payload as freed and then calls the allocator's
DoReAllocate with the old header address, so that when that call returns
null the hook returns null with the old payload left poisoned as freed and
every access through the stale pointer is rejected. -/
theorem reallocate_hook_failure_spec (S HR : Nat) (alloc : Nat → Option Nat)
    (realloc : Nat → Nat → Option Nat) (st : SState) (n ptr : Nat)
    (hptr : 8 ∣ ptr) (hptr0 : 0 < ptr) (hA8 : 8 ∣ st.headers (ptr - HR)) :
    (KasanReAllocateHook S HR alloc realloc st none n =
      KasanAllocateHook S HR alloc st n) ∧
    (realloc (ptr - HR) (kasan_get_allocate_params HR n).2 = none →
      KasanReAllocateHook S HR alloc realloc st (some ptr) n =
        ({ st with
            shadow := poison_shadow S st.shadow ptr (st.headers (ptr - HR))
                        ASAN_SHADOW_HEAP_FREE_MAGIC },
          none,
          [AllocEvent.doReAllocate (ptr - HR) (kasan_get_allocate_params HR n).2]) ∧
      (∀ addr size (w : Bool) (pc : Nat), 1 ≤ size → ptr ≤ addr →
        addr + size ≤ ptr + st.headers (ptr - HR) →
        1 ≤ S → st.globals.kasan_initialized = true →
        addr + size ≤ S → addr + size ≤ st.globals.low_mem_end →
        addr + size ≤ st.globals.high_mem_end →
        (kasan_check_memory S (KasanReAllocateHook S HR alloc realloc st (some ptr) n).1
          addr size w pc).2.1 = false)) := by
  refine ⟨rfl, fun h => ⟨?_, ?_⟩⟩
  · simp only [KasanReAllocateHook, h]
  · intro addr size w pc hsz h1 h2 hS hinit hb1 hb2 hb3
    have hst : (KasanReAllocateHook S HR alloc realloc st (some ptr) n).1 =
        { st with
            shadow := poison_shadow S st.shadow ptr (st.headers (ptr - HR))
                        ASAN_SHADOW_HEAP_FREE_MAGIC } := by
      simp only [KasanReAllocateHook, h]
    rw [hst]
    exact freed_range_check_rejects S st ptr (st.headers (ptr - HR)) addr size w pc
      hptr hptr0 hA8 hS hinit hsz h1 h2 hb1 hb2 hb3

/-- Witness for C4: with an allocator whose resize always fails, the hook
returns null and a 1-byte access at offset 0 of the stale payload is
rejected. -/
theorem reallocate_hook_failure_spec_witness :
    (KasanReAllocateHook 1000 64 (fun _ => none) (fun _ _ => none)
      ⟨fun _ => 0, fun _ => 16, ⟨2000, 2000, 2000, true⟩⟩ (some 64) 24).2.1 = none ∧
    (kasan_check_memory 1000
      (KasanReAllocateHook 1000 64 (fun _ => none) (fun _ _ => none)
        ⟨fun _ => 0, fun _ => 16, ⟨2000, 2000, 2000, true⟩⟩ (some 64) 24).1
      64 1 false 0).2.1 = false := by
  have h := reallocate_hook_failure_spec 1000 64 (fun _ => none) (fun _ _ => none)
    ⟨fun _ => 0, fun _ => 16, ⟨2000, 2000, 2000, true⟩⟩ 24 64
    (by decide) (by decide) (by decide)
  have h2 := h.2 rfl
  constructor
  · rw [h2.1]
  · exact h2.2 64 1 false 0 (by decide) (by decide) (by decide) (by decide)
      (by decide) (by decide) (by decide) (by decide)

/-- Value of a shadow byte below 128 read back through `int8_t`. -/
theorem int8_of_byte_of_lt (b : Nat) (hb : b < 128) : int8_of_byte b = (b : Int) := by
  simp only [int8_of_byte]
  split_ifs <;> omega

/-- C1: after allocate(10) (payload at B + HR), the check accepts 1-byte
accesses at payload offsets 0 through 9 and rejects them at offsets 10
through 15 (the granule whose shadow byte encodes 2 accessible bytes) and
throughout the tail redzone at offsets 16 through 47; and in general, when
the scan's first non-zero shadow byte is the shadow byte of the last real
byte of the range and that byte encodes an accessible count in [1,7], the
access is accepted exactly when the last byte's offset within its granule
is strictly below that count. -/
theorem partial_granule_tail_check (S HR : Nat) (alloc : Nat → Option Nat)
    (st : SState) (B : Nat)
    (hB : 8 ∣ B) (hB0 : 0 < B) (hHR : 8 ∣ HR)
    (hsome : alloc (kasan_get_allocate_params HR 10).2 = some B)
    (hS : 1 ≤ S) (hinit : st.globals.kasan_initialized = true)
    (hb1 : B + HR + 48 ≤ S) (hb2 : B + HR + 48 ≤ st.globals.low_mem_end)
    (hb3 : B + HR + 48 ≤ st.globals.high_mem_end) :
    (∀ k (w : Bool) (pc : Nat), k < 48 →
      ((kasan_check_memory S (KasanAllocateHook S HR alloc st 10).1
          (B + HR + k) 1 w pc).2.1 = true ↔ k < 10)) ∧
    (∀ (st' : SState) (addr size : Nat) (w : Bool) (pc : Nat),
      st'.globals.kasan_initialized = true → 1 ≤ size →
      addr + size ≤ S → addr + size ≤ st'.globals.low_mem_end →
      addr + size ≤ st'.globals.high_mem_end →
      first_nonzero_shadow st'.shadow (KASAN_MEM_TO_SHADOW S addr)
          (KASAN_MEM_TO_SHADOW S (addr + size - 1) + 1 - KASAN_MEM_TO_SHADOW S addr)
        = KASAN_MEM_TO_SHADOW S (addr + size - 1) →
      1 ≤ st'.shadow (KASAN_MEM_TO_SHADOW S (addr + size - 1)) →
      st'.shadow (KASAN_MEM_TO_SHADOW S (addr + size - 1)) ≤ 7 →
      ((kasan_check_memory S st' addr size w pc).2.1 = true ↔
        (addr + size - 1) % 8 <
          st'.shadow (KASAN_MEM_TO_SHADOW S (addr + size - 1)))) := by
  constructor
  · intro k w pc hk
    have hstate : (KasanAllocateHook S HR alloc st 10).1 =
        (kasan_shadow_allocated S HR st B 10 ((10 + 7) / 8 * 8)).1 := by
      simp only [KasanAllocateHook, hsome]
      rfl
    have hacc := check_single_accept_iff S
      (kasan_shadow_allocated S HR st B 10 ((10 + 7) / 8 * 8)).1
      (B + HR + k) w pc hS hinit (by omega)
      (by rw [kasan_shadow_allocated_globals]; omega)
      (by rw [kasan_shadow_allocated_globals]; omega)
    rw [hstate, hacc]
    have hmod : (B + HR + k) % 8 = k % 8 := by omega
    have hpoint := kasan_shadow_allocated_shadow S HR st B 10 hB hB0 hHR
      ((B + HR + k) / 8 + S)
    by_cases h8 : k < 8
    · have hval : (kasan_shadow_allocated S HR st B 10 ((10 + 7) / 8 * 8)).1.shadow
          ((B + HR + k) / 8 + S) = ASAN_SHADOW_UNPOISONED_MAGIC := by
        rw [hpoint]
        split_ifs <;> first | rfl | omega
      rw [hval]
      exact iff_of_true (Or.inl rfl) (by omega)
    · by_cases h16 : k < 16
      · have hval : (kasan_shadow_allocated S HR st B 10 ((10 + 7) / 8 * 8)).1.shadow
            ((B + HR + k) / 8 + S) = 10 % 8 := by
          rw [hpoint]
          split_ifs <;> first | rfl | omega
        rw [hval, hmod]
        have hi : int8_of_byte (10 % 8) = 2 := by decide
        rw [hi]
        omega
      · have hval : (kasan_shadow_allocated S HR st B 10 ((10 + 7) / 8 * 8)).1.shadow
            ((B + HR + k) / 8 + S) = ASAN_SHADOW_HEAP_TAIL_REDZONE_MAGIC := by
          rw [hpoint]
          split_ifs <;> first | rfl | omega
        rw [hval, hmod]
        have hi : int8_of_byte ASAN_SHADOW_HEAP_TAIL_REDZONE_MAGIC = -5 := by decide
        rw [hi]
        simp only [ASAN_SHADOW_HEAP_TAIL_REDZONE_MAGIC]
        omega
  · intro st' addr size w pc hinit' hsz hb1' hb2' hb3' hfirst hv1 hv7
    rw [kasan_check_memory_scan S st' addr size w pc hinit' hsz hb1' hb2' hb3']
    have hne : ¬(KASAN_MEM_TO_SHADOW S (addr + size - 1) = 0) := by
      simp only [KASAN_MEM_TO_SHADOW]; omega
    have hv8 : int8_of_byte (st'.shadow (KASAN_MEM_TO_SHADOW S (addr + size - 1))) =
        (st'.shadow (KASAN_MEM_TO_SHADOW S (addr + size - 1)) : Int) :=
      int8_of_byte_of_lt _ (by omega)
    by_cases hlt : (addr + size - 1) % 8 <
        st'.shadow (KASAN_MEM_TO_SHADOW S (addr + size - 1))
    · have hget : get_poisoned_shadow_address S st'.shadow addr size = 0 := by
        simp only [get_poisoned_shadow_address]
        rw [hfirst]
        have hcond : ¬(KASAN_MEM_TO_SHADOW S (addr + size - 1) ≠
              KASAN_MEM_TO_SHADOW S (addr + size - 1) ∨
            (((addr + size - 1) % 8 : Nat) : Int) ≥
              int8_of_byte (st'.shadow (KASAN_MEM_TO_SHADOW S (addr + size - 1)))) := by
          rintro (h | h)
          · exact h rfl
          · rw [hv8] at h
            omega
        rw [if_pos hne, if_neg hcond]
      rw [hget, if_pos rfl]
      exact iff_of_true rfl hlt
    · have hcond : KASAN_MEM_TO_SHADOW S (addr + size - 1) ≠
            KASAN_MEM_TO_SHADOW S (addr + size - 1) ∨
          (((addr + size - 1) % 8 : Nat) : Int) ≥
            int8_of_byte (st'.shadow (KASAN_MEM_TO_SHADOW S (addr + size - 1))) := by
        refine Or.inr ?_
        rw [hv8]
        omega
      have hget : get_poisoned_shadow_address S st'.shadow addr size =
          KASAN_MEM_TO_SHADOW S (addr + size - 1) := by
        simp only [get_poisoned_shadow_address]
        rw [hfirst]
        rw [if_pos hne, if_pos hcond]
      rw [hget, if_neg hne]
      exact iff_of_false (by simp) hlt

/-- Witness for C1: after allocate(10) at block 64 with HR = 64, the 1-byte
write at payload offset 9 is accepted and the one at offset 12 is
rejected. -/
theorem partial_granule_tail_check_witness :
    (kasan_check_memory 2000
      (KasanAllocateHook 2000 64 (fun _ => some 64)
        ⟨fun _ => 0, fun _ => 0, ⟨0, 3000, 3000, true⟩⟩ 10).1
      (64 + 64 + 9) 1 true 0).2.1 = true ∧
    (kasan_check_memory 2000
      (KasanAllocateHook 2000 64 (fun _ => some 64)
        ⟨fun _ => 0, fun _ => 0, ⟨0, 3000, 3000, true⟩⟩ 10).1
      (64 + 64 + 12) 1 true 0).2.1 = false := by
  have h := partial_granule_tail_check 2000 64 (fun _ => some 64)
    ⟨fun _ => 0, fun _ => 0, ⟨0, 3000, 3000, true⟩⟩ 64 (by decide) (by decide)
    (by decide) rfl (by decide) rfl (by decide) (by decide) (by decide)
  constructor
  · exact (h.1 9 true 0 (by decide)).mpr (by decide)
  · have h12 := h.1 12 true 0 (by decide)
    exact Bool.eq_false_iff.mpr fun hc => absurd (h12.mp hc) (by decide)

/-- C5: quantified over every shadow state, the check accepts with no
report and without consulting any shadow byte exactly when the readiness
flag is unset, or the size is 0, or the whole range lies within the shadow
region, or the whole range lies within the I/O window between the
low-memory end and one gigabyte, or the range's last byte is at or beyond
the top of high memory. -/
theorem fast_accept_iff (S : Nat) (g : KasanGlobals) (hdrs : Nat → Nat)
    (addr size : Nat) (w : Bool) (pc : Nat) (hS : 1 ≤ S) :
    (∀ sh : Nat → Nat,
      kasan_check_memory S ⟨sh, hdrs, g⟩ addr size w pc = (⟨sh, hdrs, g⟩, true, [])) ↔
    (g.kasan_initialized = false ∨ size = 0 ∨
      (∀ k, k < size → S ≤ addr + k ∧ addr + k < g.shadow_mem_end) ∨
      (∀ k, k < size → g.low_mem_end ≤ addr + k ∧ addr + k < GIGABYTE) ∨
      g.high_mem_end ≤ addr + size - 1) := by
  constructor
  · intro hall
    by_contra hnot
    push_neg at hnot
    obtain ⟨hi, hs0, hsh, hio, hhigh⟩ := hnot
    have h1 : ¬(g.kasan_initialized = false ∨ size = 0) := fun h => h.elim hi hs0
    have hguard : ¬((S ≤ addr ∧ addr + size - 1 < g.shadow_mem_end) ∨
        (g.low_mem_end ≤ addr ∧ addr + size - 1 < GIGABYTE) ∨
        g.high_mem_end ≤ addr + size - 1) := by
      rintro (⟨ha, hb⟩ | ⟨ha, hb⟩ | hc)
      · obtain ⟨k, hk, hkk⟩ := hsh
        omega
      · obtain ⟨k, hk, hkk⟩ := hio
        omega
      · omega
    have hm : int8_of_byte 255 = -1 := by decide
    have hget : get_poisoned_shadow_address S (fun _ => 255) addr size =
        addr / 8 + S := by
      apply get_poisoned_reject S (fun _ => 255) addr size hS (by omega)
      · show (255 : Nat) ≠ 0
        decide
      · show int8_of_byte 255 ≤ (((addr + size - 1) % 8 : Nat) : Int)
        rw [hm]
        omega
    have hred : kasan_check_memory S ⟨fun _ => 255, hdrs, g⟩ addr size w pc =
        (⟨fun _ => 255, hdrs, g⟩, false,
          kasan_bug_report S (fun _ => 255) addr size (addr / 8 + S) w pc) := by
      simp only [kasan_check_memory]
      rw [if_neg h1, if_neg hguard, hget, if_neg (by omega : ¬(addr / 8 + S = 0))]
    have h := hall (fun _ => 255)
    rw [hred] at h
    simp at h
  · intro hcond sh
    rcases hcond with hi | hs0 | hsh | hio | hhigh
    · simp [kasan_check_memory, hi]
    · simp [kasan_check_memory, hs0]
    · by_cases hsz : size = 0
      · simp [kasan_check_memory, hsz]
      · have hg : S ≤ addr ∧ addr + size - 1 < g.shadow_mem_end := by
          have ha := (hsh 0 (by omega)).1
          have hb := (hsh (size - 1) (by omega)).2
          omega
        simp only [kasan_check_memory]
        split_ifs with ha hb hc
        · rfl
        · rfl
        · rfl
        · exact absurd (Or.inl hg) hb
    · by_cases hsz : size = 0
      · simp [kasan_check_memory, hsz]
      · have hg : g.low_mem_end ≤ addr ∧ addr + size - 1 < GIGABYTE := by
          have ha := (hio 0 (by omega)).1
          have hb := (hio (size - 1) (by omega)).2
          omega
        simp only [kasan_check_memory]
        split_ifs with ha hb hc
        · rfl
        · rfl
        · rfl
        · exact absurd (Or.inr (Or.inl hg)) hb
    · simp only [kasan_check_memory]
      split_ifs with ha hb hc
      · rfl
      · rfl
      · rfl
      · exact absurd (Or.inr (Or.inr hhigh)) hb

/-- Witness for C5: a size-0 access is fast-accepted with no report. -/
theorem fast_accept_iff_witness :
    kasan_check_memory 5 ⟨fun _ => 7, fun _ => 0, ⟨0, 0, 0, true⟩⟩ 10 0 true 0 =
      (⟨fun _ => 7, fun _ => 0, ⟨0, 0, 0, true⟩⟩, true, []) :=
  (fast_accept_iff 5 ⟨0, 0, 0, true⟩ (fun _ => 0) 10 0 true 0 (by decide)).mpr
    (Or.inr (Or.inl rfl)) (fun _ => 7)

/- Pointwise description of the shadow state after registering a global. -/

theorem asan_register_global_eval (S : Nat) (sh : Nat → Nat) (g : kasan_global_info)
    (hstart : 8 ∣ g.start) (h0 : 0 < g.start) (hswr : 8 ∣ g.size_with_redzone)
    (hns : g.size ≤ g.size_with_redzone) (a : Nat) :
    asan_register_global S sh g a =
      if g.start / 8 + (g.size + 7) / 8 + S ≤ a ∧
          a < g.start / 8 + g.size_with_redzone / 8 + S then
        ASAN_SHADOW_GLOBAL_REDZONE_MAGIC
      else if g.size % 8 ≠ 0 ∧ a = g.start / 8 + g.size / 8 + S then g.size % 8
      else if g.start / 8 + S ≤ a ∧ a < g.start / 8 + g.size / 8 + S then
        ASAN_SHADOW_UNPOISONED_MAGIC
      else sh a := by
  have haligned : 8 ∣ (g.size + 7) / 8 * 8 := Dvd.intro_left _ rfl
  have hrz : 8 ∣ g.size_with_redzone - (g.size + 7) / 8 * 8 := by omega
  simp only [asan_register_global]
  rw [poison_shadow_eval S _ (g.start + (g.size + 7) / 8 * 8)
      (g.size_with_redzone - (g.size + 7) / 8 * 8) ASAN_SHADOW_GLOBAL_REDZONE_MAGIC a
      (by omega) (by omega) hrz,
    unpoison_shadow_eval S sh g.start g.size a hstart h0]
  split_ifs <;> first | rfl | omega

/-- C7: registering a global descriptor unpoisons its payload and poisons
[start + roundUp8(size), start + size_with_redzone) with the global-redzone
tag; afterwards 1-byte accesses at offsets [0, size) are accepted and at
offsets [size, size_with_redzone) rejected; the table entry point registers
every descriptor in order, and the unregister entry point is a no-op. -/
theorem register_globals_spec (S : Nat) (sh : Nat → Nat) (g : kasan_global_info)
    (hstart : 8 ∣ g.start) (h0 : 0 < g.start) (hswr : 8 ∣ g.size_with_redzone)
    (hns : g.size ≤ g.size_with_redzone) (hS : 1 ≤ S) :
    (∀ a, asan_register_global S sh g a =
      if g.start / 8 + (g.size + 7) / 8 + S ≤ a ∧
          a < g.start / 8 + g.size_with_redzone / 8 + S then
        ASAN_SHADOW_GLOBAL_REDZONE_MAGIC
      else if g.size % 8 ≠ 0 ∧ a = g.start / 8 + g.size / 8 + S then g.size % 8
      else if g.start / 8 + S ≤ a ∧ a < g.start / 8 + g.size / 8 + S then
        ASAN_SHADOW_UNPOISONED_MAGIC
      else sh a) ∧
    (∀ (hdrs : Nat → Nat) (gl : KasanGlobals) (k : Nat) (w : Bool) (pc : Nat),
      gl.kasan_initialized = true →
      g.start + g.size_with_redzone ≤ S →
      g.start + g.size_with_redzone ≤ gl.low_mem_end →
      g.start + g.size_with_redzone ≤ gl.high_mem_end →
      k < g.size_with_redzone →
      ((kasan_check_memory S ⟨asan_register_global S sh g, hdrs, gl⟩
          (g.start + k) 1 w pc).2.1 = true ↔ k < g.size)) ∧
    (asan_register_globals S sh [] = sh) ∧
    (∀ (g2 : kasan_global_info) (gs : List kasan_global_info),
      asan_register_globals S sh (g2 :: gs) =
        asan_register_globals S (asan_register_global S sh g2) gs) ∧
    (∀ gs, asan_unregister_globals S sh gs = sh) := by
  refine ⟨asan_register_global_eval S sh g hstart h0 hswr hns, ?_,
    rfl, fun g2 gs => rfl, fun gs => rfl⟩
  intro hdrs gl k w pc hinit hbs hbl hbh hk
  have hacc := check_single_accept_iff S ⟨asan_register_global S sh g, hdrs, gl⟩
    (g.start + k) w pc hS hinit (by omega)
    (by show g.start + k + 1 ≤ gl.low_mem_end; omega)
    (by show g.start + k + 1 ≤ gl.high_mem_end; omega)
  rw [hacc]
  have hmod : (g.start + k) % 8 = k % 8 := by omega
  have hpoint := asan_register_global_eval S sh g hstart h0 hswr hns
    ((g.start + k) / 8 + S)
  by_cases hfull : k / 8 < g.size / 8
  · have hval : (⟨asan_register_global S sh g, hdrs, gl⟩ : SState).shadow
        ((g.start + k) / 8 + S) = ASAN_SHADOW_UNPOISONED_MAGIC := by
      show asan_register_global S sh g ((g.start + k) / 8 + S) = _
      rw [hpoint]
      split_ifs <;> first | rfl | omega
    rw [hval]
    exact iff_of_true (Or.inl rfl) (by omega)
  · by_cases hpart : k / 8 = g.size / 8 ∧ g.size % 8 ≠ 0
    · have hval : (⟨asan_register_global S sh g, hdrs, gl⟩ : SState).shadow
          ((g.start + k) / 8 + S) = g.size % 8 := by
        show asan_register_global S sh g ((g.start + k) / 8 + S) = _
        rw [hpoint]
        split_ifs <;> first | rfl | omega
      rw [hval, hmod]
      have hi : int8_of_byte (g.size % 8) = ((g.size % 8 : Nat) : Int) :=
        int8_of_byte_of_lt _ (by omega)
      rw [hi]
      omega
    · have hval : (⟨asan_register_global S sh g, hdrs, gl⟩ : SState).shadow
          ((g.start + k) / 8 + S) = ASAN_SHADOW_GLOBAL_REDZONE_MAGIC := by
        show asan_register_global S sh g ((g.start + k) / 8 + S) = _
        rw [hpoint]
        split_ifs <;> first | rfl | omega
      rw [hval, hmod]
      have hi : int8_of_byte ASAN_SHADOW_GLOBAL_REDZONE_MAGIC = -7 := by decide
      rw [hi]
      simp only [ASAN_SHADOW_GLOBAL_REDZONE_MAGIC]
      omega

/-- Witness for C7: for the registered global at 64 of size 10 padded to
24, the 1-byte access at offset 9 is accepted and the one at offset 16 is
rejected. -/
theorem register_globals_spec_witness :
    ((kasan_check_memory 2000
      ⟨asan_register_global 2000 (fun _ => 0) ⟨64, 10, 24⟩, fun _ => 0,
        ⟨0, 3000, 3000, true⟩⟩ (64 + 9) 1 false 0).2.1 = true) ∧
    ((kasan_check_memory 2000
      ⟨asan_register_global 2000 (fun _ => 0) ⟨64, 10, 24⟩, fun _ => 0,
        ⟨0, 3000, 3000, true⟩⟩ (64 + 16) 1 false 0).2.1 = false) := by
  have h := register_globals_spec 2000 (fun _ => 0) ⟨64, 10, 24⟩ (by decide)
    (by decide) (by decide) (by decide) (by decide)
  constructor
  · exact (h.2.1 (fun _ => 0) ⟨0, 3000, 3000, true⟩ 9 false 0 rfl (by decide)
      (by decide) (by decide) (by decide)).mpr (by decide)
  · have h16 := h.2.1 (fun _ => 0) ⟨0, 3000, 3000, true⟩ 16 false 0 rfl (by decide)
      (by decide) (by decide) (by decide)
    exact Bool.eq_false_iff.mpr fun hc => absurd (h16.mp hc) (by decide)

/-- The shadow dump emitted by one report contains no header record. -/
theorem print_shadow_memory_no_header (S : Nat) (sh : Nat → Nat)
    (address : Nat) :
    (kasan_print_shadow_memory S sh address 3 3).filter isHeaderEvent = [] := by
  simp [kasan_print_shadow_memory, kasan_print_16_bytes_no_bug,
    kasan_print_16_bytes_with_bug, isHeaderEvent, List.filter_append,
    List.range_succ]

/-- C8: a rejected access triggers exactly one BugReporter invocation whose
record list contains exactly one header record; the report translates the
buggy shadow address back to a real address and consists of the separator,
the header carrying the access address, size, write/read flag and
instruction pointer, the translated-address line, 3 plain 16-byte shadow
rows, the row containing the violation with the violating byte delimited at
its offset, then 3 more plain rows; and in the section-8 scenario
(initialize, allocate(5), 1-byte writes at payload offsets 4 and 8) the
offset-4 write is accepted and the offset-8 write is rejected with exactly
one header record carrying isWrite = true and fault address payload+8. -/
theorem bug_report_spec :
    (∀ (S : Nat) (st : SState) (addr size : Nat) (w : Bool) (pc : Nat),
      (kasan_check_memory S st addr size w pc).2.1 = false →
        (kasan_check_memory S st addr size w pc).2.2 =
          kasan_bug_report S st.shadow addr size
            (get_poisoned_shadow_address S st.shadow addr size) w pc ∧
        ((kasan_check_memory S st addr size w pc).2.2.filter isHeaderEvent).length
          = 1) ∧
    (∀ (S : Nat) (sh : Nat → Nat) (addr size bsa : Nat) (w : Bool) (ip : Nat),
      kasan_bug_report S sh addr size bsa w ip =
        LogEvent.separator ::
        LogEvent.header addr size w ip ::
        LogEvent.shadowInfo (KASAN_SHADOW_TO_MEM S bsa)
          (KASAN_MEM_TO_SHADOW S (KASAN_SHADOW_TO_MEM S bsa)) ::
        [kasan_print_16_bytes_no_bug sh
          (Nat.land (KASAN_MEM_TO_SHADOW S (KASAN_SHADOW_TO_MEM S bsa)) 0xfffffff0 - 48),
         kasan_print_16_bytes_no_bug sh
          (Nat.land (KASAN_MEM_TO_SHADOW S (KASAN_SHADOW_TO_MEM S bsa)) 0xfffffff0 - 32),
         kasan_print_16_bytes_no_bug sh
          (Nat.land (KASAN_MEM_TO_SHADOW S (KASAN_SHADOW_TO_MEM S bsa)) 0xfffffff0 - 16),
         kasan_print_16_bytes_with_bug sh
          (Nat.land (KASAN_MEM_TO_SHADOW S (KASAN_SHADOW_TO_MEM S bsa)) 0xfffffff0)
          (KASAN_MEM_TO_SHADOW S (KASAN_SHADOW_TO_MEM S bsa) -
            Nat.land (KASAN_MEM_TO_SHADOW S (KASAN_SHADOW_TO_MEM S bsa)) 0xfffffff0),
         kasan_print_16_bytes_no_bug sh
          (Nat.land (KASAN_MEM_TO_SHADOW S (KASAN_SHADOW_TO_MEM S bsa)) 0xfffffff0 + 16),
         kasan_print_16_bytes_no_bug sh
          (Nat.land (KASAN_MEM_TO_SHADOW S (KASAN_SHADOW_TO_MEM S bsa)) 0xfffffff0 + 32),
         kasan_print_16_bytes_no_bug sh
          (Nat.land (KASAN_MEM_TO_SHADOW S (KASAN_SHADOW_TO_MEM S bsa)) 0xfffffff0 + 48)]) ∧
    ((kasan_check_memory 0x10000000
        (KasanAllocateHook 0x10000000 0x40 (fun _ => some 0x100000)
          (KasanInitialize 0x10000000 ⟨fun _ => 0, fun _ => 0, ⟨0, 0, 0, false⟩⟩
            0x2000000 0x10000000 0x8000000) 5).1
        (0x100040 + 4) 1 true 0x8000).2.1 = true ∧
     (kasan_check_memory 0x10000000
        (KasanAllocateHook 0x10000000 0x40 (fun _ => some 0x100000)
          (KasanInitialize 0x10000000 ⟨fun _ => 0, fun _ => 0, ⟨0, 0, 0, false⟩⟩
            0x2000000 0x10000000 0x8000000) 5).1
        (0x100040 + 8) 1 true 0x8000).2.1 = false ∧
     ((kasan_check_memory 0x10000000
        (KasanAllocateHook 0x10000000 0x40 (fun _ => some 0x100000)
          (KasanInitialize 0x10000000 ⟨fun _ => 0, fun _ => 0, ⟨0, 0, 0, false⟩⟩
            0x2000000 0x10000000 0x8000000) 5).1
        (0x100040 + 8) 1 true 0x8000).2.2.filter isHeaderEvent =
      [LogEvent.header (0x100040 + 8) 1 true 0x8000])) := by
  refine ⟨?_, ?_, by decide, by decide, by decide⟩
  · intro S st addr size w pc hrej
    have hsplit : kasan_check_memory S st addr size w pc =
        (st, false, kasan_bug_report S st.shadow addr size
          (get_poisoned_shadow_address S st.shadow addr size) w pc) := by
      simp only [kasan_check_memory] at hrej ⊢
      split_ifs at hrej ⊢ <;> simp_all
    rw [hsplit]
    refine ⟨rfl, ?_⟩
    show (List.filter isHeaderEvent (kasan_bug_report S st.shadow addr size
      (get_poisoned_shadow_address S st.shadow addr size) w pc)).length = 1
    simp [kasan_bug_report, List.filter_cons, isHeaderEvent,
      print_shadow_memory_no_header]
  · intro S sh addr size bsa w ip
    rfl

/-- Witness for C8: a rejected 1-byte access over an all-poisoned shadow
emits exactly one header record. -/
theorem bug_report_spec_witness :
    ((kasan_check_memory 1000 ⟨fun _ => 255, fun _ => 0, ⟨0, 2000, 2000, true⟩⟩
        8 1 true 0).2.2.filter isHeaderEvent).length = 1 :=
  (bug_report_spec.1 1000 ⟨fun _ => 255, fun _ => 0, ⟨0, 2000, 2000, true⟩⟩ 8 1 true 0
    (by decide)).2
